import Mathlib

/-!
Shallow embedding of the juce_serialport module (src/core/Streams.h and
src/native/juce_serialport_Windows.cpp), together with theorems settling the
spec claims about it.

Bytes are modelled as Nat; buffers as lists of bytes with the head of the list
being the oldest buffered byte.  The concurrent producer/consumer structure is
modelled as explicit traces of atomic operations (each operation is one
critical section of the source), executed by a fold over a step function.
-/

namespace JuceSerial

abbrev Byte := Nat

/-! ## Configuration model (src/core/Streams.h lines 2-47) -/

inductive Parity
  | none
  | odd
  | even
  | space
  | mark
deriving DecidableEq, Repr

inductive StopBits
  | one
  | oneAndHalf
  | two
deriving DecidableEq, Repr

inductive FlowControl
  | none
  | hardware
  | xOnxOff
deriving DecidableEq, Repr

structure SerialPortConfig where
  bps : Nat
  databits : Nat
  parity : Parity
  stopbits : StopBits
  flowcontrol : FlowControl
deriving DecidableEq, Repr

/-- A default-constructed SerialPortConfig (Streams.h lines 42-46): the member
initializers give bps = 9600, databits = 9600, stopbits = one,
flowcontrol = none, while the parity member has no initializer at all, so its
value is indeterminate; the indeterminate parity is modelled as a parameter. -/
def defaultConfig (p : Parity) : SerialPortConfig :=
  ⟨9600, 9600, p, StopBits.one, FlowControl.none⟩

/-! ## Windows DCB translation (juce_serialport_Windows.cpp lines 166-300)

The native constants, with their Windows values:
NOPARITY 0, ODDPARITY 1, EVENPARITY 2, MARKPARITY 3, SPACEPARITY 4;
ONESTOPBIT 0, ONE5STOPBITS 1, TWOSTOPBITS 2;
DTR_CONTROL_ENABLE 1, DTR_CONTROL_HANDSHAKE 2;
RTS_CONTROL_ENABLE 1, RTS_CONTROL_HANDSHAKE 2. -/

def NOPARITY : Nat := 0
def ODDPARITY : Nat := 1
def EVENPARITY : Nat := 2
def MARKPARITY : Nat := 3
def SPACEPARITY : Nat := 4

def ONESTOPBIT : Nat := 0
def ONE5STOPBITS : Nat := 1
def TWOSTOPBITS : Nat := 2

def DTR_CONTROL_ENABLE : Nat := 1
def DTR_CONTROL_HANDSHAKE : Nat := 2
def RTS_CONTROL_ENABLE : Nat := 1
def RTS_CONTROL_HANDSHAKE : Nat := 2

/-- The fields of the Windows DCB structure that setConfig writes and
getConfig reads. -/
structure DCB where
  BaudRate : Nat
  ByteSize : Nat
  fParity : Bool
  Parity : Nat
  StopBits : Nat
  fOutxCtsFlow : Bool
  fOutxDsrFlow : Bool
  fDtrControl : Nat
  fOutX : Bool
  fInX : Bool
  fRtsControl : Nat
deriving DecidableEq, Repr

/-- The DCB produced by SerialPort::setConfig (Windows.cpp lines 166-242) from
a configuration, assuming a valid handle.  fParity is first set true and the
none/default parity branch resets it to false; databits goes through a BYTE
cast (mod 256). -/
def setConfigDCB (c : SerialPortConfig) : DCB :=
  let pp : Bool × Nat :=
    match c.parity with
    | Parity.odd => (true, ODDPARITY)
    | Parity.even => (true, EVENPARITY)
    | Parity.mark => (true, MARKPARITY)
    | Parity.space => (true, SPACEPARITY)
    | Parity.none => (false, NOPARITY)
  let sb : Nat :=
    match c.stopbits with
    | StopBits.oneAndHalf => ONE5STOPBITS
    | StopBits.two => TWOSTOPBITS
    | StopBits.one => ONESTOPBIT
  match c.flowcontrol with
  | FlowControl.xOnxOff =>
      ⟨c.bps, c.databits % 256, pp.1, pp.2, sb,
       false, false, DTR_CONTROL_ENABLE, true, true, RTS_CONTROL_ENABLE⟩
  | FlowControl.hardware =>
      ⟨c.bps, c.databits % 256, pp.1, pp.2, sb,
       true, true, DTR_CONTROL_HANDSHAKE, false, false, RTS_CONTROL_HANDSHAKE⟩
  | FlowControl.none =>
      ⟨c.bps, c.databits % 256, pp.1, pp.2, sb,
       false, false, DTR_CONTROL_ENABLE, false, false, RTS_CONTROL_ENABLE⟩

/-- The parity read back by SerialPort::getConfig (Windows.cpp lines 257-275). -/
def getConfigParity (d : DCB) : Parity :=
  if d.Parity = ODDPARITY then Parity.odd
  else if d.Parity = EVENPARITY then Parity.even
  else if d.Parity = MARKPARITY then Parity.mark
  else if d.Parity = SPACEPARITY then Parity.space
  else Parity.none

/-- The stop bits read back by SerialPort::getConfig (Windows.cpp lines 277-289). -/
def getConfigStopBits (d : DCB) : StopBits :=
  if d.StopBits = ONE5STOPBITS then StopBits.oneAndHalf
  else if d.StopBits = TWOSTOPBITS then StopBits.two
  else StopBits.one

/-- The flow control read back by SerialPort::getConfig (Windows.cpp lines 291-297). -/
def getConfigFlow (d : DCB) : FlowControl :=
  if d.fOutX && d.fInX then FlowControl.xOnxOff
  else if d.fDtrControl = DTR_CONTROL_HANDSHAKE ∧ d.fRtsControl = RTS_CONTROL_HANDSHAKE then
    FlowControl.hardware
  else FlowControl.none

/-! ## Port handle: open / exists / cancel (Windows.cpp lines 103-164)

The upstream module defines INVALID_HANDLE as the null handle 0 (the
constructor stores portHandle = 0, and a failed CreateFile overwrites the
INVALID_HANDLE_VALUE result with 0).  CreateFile returns INVALID_HANDLE_VALUE
(-1) on failure. -/

def INVALID_HANDLE : Int := 0
def INVALID_HANDLE_VALUE : Int := -1

structure SerialPort where
  portHandle : Int
  canceled : Bool
deriving DecidableEq, Repr

/-- The outcomes of the OS calls made by SerialPort::open, supplied as an
oracle: the handle CreateFile returns (INVALID_HANDLE_VALUE on failure) and
the success of each subsequent configuration call. -/
structure OpenEnv where
  createFileHandle : Int
  getCommTimeoutsOk : Bool
  setCommTimeoutsOk : Bool
  setCommMaskOk : Bool
deriving DecidableEq, Repr

/-- SerialPort::exists (Windows.cpp lines 112-115). -/
def SerialPort.existsOpen (s : SerialPort) : Bool :=
  s.portHandle != INVALID_HANDLE

/-- SerialPort::cancel (Windows.cpp lines 161-164): only sets the canceled
flag. -/
def SerialPort.cancel (s : SerialPort) : SerialPort :=
  ⟨s.portHandle, true⟩

/-- SerialPort::open (Windows.cpp lines 117-159).  Returns the bool result and
the port state afterwards.  If CreateFile fails the handle is reset to 0
(INVALID_HANDLE) and false is returned; if any of GetCommTimeouts,
SetCommTimeouts or SetCommMask fails, false is returned but the handle keeps
the value CreateFile produced (the port is NOT closed). -/
def SerialPort.openPort (env : OpenEnv) (_s : SerialPort) : Bool × SerialPort :=
  let h := env.createFileHandle
  if h = INVALID_HANDLE_VALUE then (false, ⟨0, false⟩)
  else if env.getCommTimeoutsOk = false then (false, ⟨h, false⟩)
  else if env.setCommTimeoutsOk = false then (false, ⟨h, false⟩)
  else if env.setCommMaskOk = false then (false, ⟨h, false⟩)
  else (true, ⟨h, false⟩)

/-! ## Input stream (Streams.h lines 147-258, Windows.cpp lines 302-389) -/

/-- SerialPortInputStream::canReadLine (Streams.h lines 190-199): scan the
buffered bytes in order for a newline byte (10), without consuming. -/
def canReadLine : List Byte → Bool
  | [] => false
  | c :: rest => if c = 10 then true else canReadLine rest

/-- SerialPortInputStream::isExhausted (Streams.h lines 223-227): returns
numBufferedBytes != 0. -/
def isExhausted (buf : List Byte) : Bool :=
  buf.length != 0

/-- SerialPortInputStream::read (Windows.cpp lines 376-389).  With an invalid
port it returns -1 and leaves the buffer alone; otherwise it clamps the
requested count to the number of buffered bytes, copies that prefix out and
removes it.  The result is (return value, bytes copied to destBuffer, buffer
afterwards).  It never waits: it is a total function of the current state. -/
def istreamRead (portValid : Bool) (buf : List Byte) (maxBytesToRead : Nat) :
    Int × List Byte × List Byte :=
  if portValid then
    ((min maxBytesToRead buf.length : Nat),
     buf.take (min maxBytesToRead buf.length),
     buf.drop (min maxBytesToRead buf.length))
  else (-1, [], buf)

/-- One atomic buffer operation on the input side: the I/O thread appending
one received byte (the bytesread == 1 branch of SerialPortInputStream::run,
Windows.cpp lines 346-354), or the client calling read(n) (Windows.cpp lines
376-389).  Both run under bufferCriticalSection, so an execution is a
sequence of these. -/
inductive InOp
  | appendByte (c : Byte)
  | readCall (n : Nat)
deriving DecidableEq, Repr

/-- Input-side history: the live buffer plus the ordered histories of bytes
delivered to read callers and bytes that arrived from the device. -/
structure InState where
  buf : List Byte
  delivered : List Byte
  arrived : List Byte
deriving DecidableEq, Repr

/-- One step of the input-side system: run appends the received byte at the
tail (buffer[bufferedbytes] = c; bufferedbytes++) and read pops the clamped
prefix (memcpy from the start, then removeSection(0, n)). -/
def inStep (s : InState) : InOp → InState
  | InOp.appendByte c => ⟨s.buf ++ [c], s.delivered, s.arrived ++ [c]⟩
  | InOp.readCall n =>
      let k := min n s.buf.length
      ⟨s.buf.drop k, s.delivered ++ s.buf.take k, s.arrived⟩

/-- Execute a trace of input-side operations from the empty initial state. -/
def inExec (ops : List InOp) : InState :=
  ops.foldl inStep ⟨[], [], []⟩

/-- Whitespace as JUCE CharacterFunctions::isWhitespace classifies it:
a space, or a character code between 9 and 13. -/
def isWhitespaceByte (c : Byte) : Bool :=
  c == 32 || (9 ≤ c && c ≤ 13)

/-- JUCE String::trim: remove whitespace characters from the start and the
end of the string. -/
def trimBytes (s : List Byte) : List Byte :=
  (((s.dropWhile isWhitespaceByte).reverse.dropWhile isWhitespaceByte)).reverse

/-- The loop of SerialPortInputStream::readNextLine (Streams.h lines 206-215)
on a valid port, acting on the inbound buffer: while (read(&c,1) && c !=
newline) append c.  read returns 0 as soon as the buffer is empty, so the
loop also stops then; a newline byte is consumed but not appended.  Returns
(accumulated bytes, buffer afterwards). -/
def readNextLineLoop : List Byte → List Byte → List Byte × List Byte
  | acc, [] => (acc, [])
  | acc, c :: rest =>
      if c = 10 then (acc, rest)
      else readNextLineLoop (acc ++ [c]) rest

/-- SerialPortInputStream::readNextLine (Streams.h lines 206-215): run the
read loop, then return s.trim(). -/
def readNextLine (buf : List Byte) : List Byte × List Byte :=
  (trimBytes (readNextLineLoop [] buf).1, (readNextLineLoop [] buf).2)

/-- The behaviour claim C4 describes, written from the claim text, for
comparison with readNextLine: accumulate characters until a newline is seen
and return them with only the trailing line delimiter trimmed off (the
delimiter itself is the only byte removed, so the accumulated bytes are
returned unchanged). -/
def claimReadNextLine (buf : List Byte) : List Byte :=
  buf.takeWhile (fun c => decide (c ≠ 10))

/-! ## Output stream (Streams.h lines 260-297, Windows.cpp lines 391-454) -/

def writeBufferSize : Nat := 128

/-- The chunk size chosen by SerialPortOutputStream::run (Windows.cpp line
407): bufferedbytes > writeBufferSize ? writeBufferSize : bufferedbytes. -/
def bytesToWrite (bufferedbytes : Nat) : Nat :=
  if bufferedbytes > writeBufferSize then writeBufferSize else bufferedbytes

/-- One atomic operation on the output side: a client write(data) call
(Windows.cpp lines 443-454), one run-loop iteration whose device write
completes with devWritten bytes reported written (Windows.cpp lines 403-428;
the OS reports at most the submitted chunk, modelled by clamping), or one
iteration abandoned by the error/exit continue branches, which changes no
state (lines 412-419). -/
inductive OutOp
  | writeCall (data : List Byte)
  | drainOk (devWritten : Nat)
  | drainFail
deriving DecidableEq, Repr

/-- Output-side history: pending buffer, bytes written to the device in
order, and bytes submitted by write calls in order. -/
structure OutState where
  buf : List Byte
  device : List Byte
  submitted : List Byte
deriving DecidableEq, Repr

/-- One step of the output-side system: write appends at the tail
(buffer.append), a completed drain copies the chunk-bounded prefix into
tempbuffer, writes the first devWritten bytes of it to the device and removes
exactly that written prefix (removeSection(0, byteswritten)). -/
def outStep (s : OutState) : OutOp → OutState
  | OutOp.writeCall data => ⟨s.buf ++ data, s.device, s.submitted ++ data⟩
  | OutOp.drainOk devWritten =>
      let k := min devWritten (bytesToWrite s.buf.length)
      ⟨s.buf.drop k, s.device ++ s.buf.take k, s.submitted⟩
  | OutOp.drainFail => s

/-- Execute a trace of output-side operations from the empty initial state. -/
def outExec (ops : List OutOp) : OutState :=
  ops.foldl outStep ⟨[], [], []⟩

/-! ## Worker loop guards and cancellation (Windows.cpp lines 313, 398) -/

/-- The state a worker loop guard can see: the port object and the JUCE
thread's should-exit flag (set by signalThreadShouldExit, as the stream
destructors do before joining). -/
structure WorkerState where
  port : SerialPort
  threadShouldExit : Bool
deriving DecidableEq, Repr

/-- SerialPort::cancel as seen from a worker: it only sets port->canceled. -/
def cancelViaPort (w : WorkerState) : WorkerState :=
  ⟨w.port.cancel, w.threadShouldExit⟩

/-- The while-guard of SerialPortInputStream::run (Windows.cpp line 313):
port && port->portHandle && !threadShouldExit().  The guard is re-evaluated
after each bounded wait (at most 100 ms).  The canceled flag does not occur
in it. -/
def inputLoopContinues (w : WorkerState) : Bool :=
  (w.port.portHandle != INVALID_HANDLE) && !w.threadShouldExit

/-- The while-guard of SerialPortOutputStream::run (Windows.cpp line 398):
port && port->portHandle && !threadShouldExit().  The canceled flag does not
occur in it. -/
def outputLoopContinues (w : WorkerState) : Bool :=
  (w.port.portHandle != INVALID_HANDLE) && !w.threadShouldExit

/-! ## Helper lemmas -/

/-- One input-side step preserves the FIFO history invariant
delivered ++ buf = arrived. -/
theorem inStep_inv (s : InState) (op : InOp)
    (h : s.delivered ++ s.buf = s.arrived) :
    (inStep s op).delivered ++ (inStep s op).buf = (inStep s op).arrived := by
  cases op with
  | appendByte c =>
      simp only [inStep, ← h, List.append_assoc]
  | readCall n =>
      simp only [inStep, List.append_assoc, List.take_append_drop, h]

/-- Folding input-side steps preserves the FIFO history invariant. -/
theorem inExec_inv_aux (ops : List InOp) (s : InState)
    (h : s.delivered ++ s.buf = s.arrived) :
    (ops.foldl inStep s).delivered ++ (ops.foldl inStep s).buf
      = (ops.foldl inStep s).arrived := by
  induction ops generalizing s with
  | nil => exact h
  | cons op rest ih => exact ih (inStep s op) (inStep_inv s op h)

/-- One output-side step preserves the invariant device ++ buf = submitted. -/
theorem outStep_inv (s : OutState) (op : OutOp)
    (h : s.device ++ s.buf = s.submitted) :
    (outStep s op).device ++ (outStep s op).buf = (outStep s op).submitted := by
  cases op with
  | writeCall data =>
      simp only [outStep, ← h, List.append_assoc]
  | drainOk devWritten =>
      simp only [outStep, List.append_assoc, List.take_append_drop, h]
  | drainFail => exact h

/-- Folding output-side steps preserves the invariant. -/
theorem outExec_inv_aux (ops : List OutOp) (s : OutState)
    (h : s.device ++ s.buf = s.submitted) :
    (ops.foldl outStep s).device ++ (ops.foldl outStep s).buf
      = (ops.foldl outStep s).submitted := by
  induction ops generalizing s with
  | nil => exact h
  | cons op rest ih => exact ih (outStep s op) (outStep_inv s op h)

/-- Closed form of the readNextLine loop: it accumulates the bytes before the
first newline and leaves the buffer past that newline (or empty when there is
none). -/
theorem readNextLineLoop_eq (buf : List Byte) (acc : List Byte) :
    readNextLineLoop acc buf =
      (acc ++ buf.takeWhile (fun c => decide (c ≠ 10)),
       (buf.dropWhile (fun c => decide (c ≠ 10))).drop 1) := by
  induction buf generalizing acc with
  | nil => simp [readNextLineLoop]
  | cons c rest ih =>
      by_cases h : c = 10
      · subst h
        simp [readNextLineLoop, List.takeWhile_cons, List.dropWhile_cons]
      · simp [readNextLineLoop, if_neg h, ih, List.takeWhile_cons,
          List.dropWhile_cons, h]

/-! ## Claim theorems -/

/-- C1: read(n) on a valid open port is a total (non-blocking) function of
the buffer state; it returns min(n, number of buffered bytes), copies out
exactly that many bytes — never more than are buffered — and returns 0 on an
empty buffer. -/
theorem C1_read_returns_min (buf : List Byte) (n : Nat) :
    (istreamRead true buf n).1 = ((min n buf.length : Nat) : Int) ∧
    (istreamRead true buf n).2.1.length = min n buf.length ∧
    min n buf.length ≤ buf.length ∧
    (istreamRead true [] n).1 = 0 := by
  refine ⟨?_, ?_, Nat.min_le_right n buf.length, ?_⟩
  · simp [istreamRead]
  · simp [istreamRead]
  · simp [istreamRead]

/-- C2: the inbound buffer is a FIFO queue.  The I/O thread appends each
received byte at the tail and read pops only a prefix (both being the step
function embedded from the source); for every interleaving, the bytes
delivered to readers followed by the bytes still buffered equal, in order,
the bytes that arrived — so no byte is delivered twice or out of order. -/
theorem C2_inbound_fifo (ops : List InOp) :
    (inExec ops).delivered ++ (inExec ops).buf = (inExec ops).arrived :=
  inExec_inv_aux ops ⟨[], [], []⟩ rfl

/-- C3 counterexample: an open that fails after CreateFile succeeded (here
GetCommTimeouts fails on handle 5) returns false yet leaves the handle open,
so exists() returns true — the claim that every failed open leaves exists()
false is violated. -/
theorem C3_counterexample :
    ((SerialPort.openPort ⟨5, false, true, true⟩ ⟨0, false⟩).1 = false) ∧
    (SerialPort.existsOpen (SerialPort.openPort ⟨5, false, true, true⟩ ⟨0, false⟩).2 = true) := by
  decide

/-- C3 amended: when open fails because the device cannot be opened
(CreateFile returns INVALID_HANDLE_VALUE, e.g. for a nonexistent path), open
returns false, the handle is reset to INVALID_HANDLE and exists() returns
false afterwards; failures of the later configuration calls return false but
leave the handle open. -/
theorem C3_open_createfile_fail (env : OpenEnv) (s : SerialPort)
    (h : env.createFileHandle = INVALID_HANDLE_VALUE) :
    (SerialPort.openPort env s).1 = false ∧
    SerialPort.existsOpen (SerialPort.openPort env s).2 = false := by
  simp [SerialPort.openPort, SerialPort.existsOpen, h, INVALID_HANDLE]

/-- Witness for C3_open_createfile_fail at a concrete failing CreateFile. -/
theorem C3_open_createfile_fail_witness :
    (SerialPort.openPort ⟨-1, true, true, true⟩ ⟨0, false⟩).1 = false ∧
    SerialPort.existsOpen (SerialPort.openPort ⟨-1, true, true, true⟩ ⟨0, false⟩).2 = false :=
  C3_open_createfile_fail ⟨-1, true, true, true⟩ ⟨0, false⟩ rfl

/-- C4 counterexample: on buffer [32, 120, 10] (" x\n") the accumulated
characters are [32, 120], and trimming only the trailing delimiter would
return them unchanged, but readNextLine returns [120]: String::trim also
strips the leading space.  Moreover on the newline-free buffer [97, 98]
readNextLine returns immediately with ([97, 98], []) instead of blocking
until a newline is seen. -/
theorem C4_counterexample :
    ((readNextLine [32, 120, 10]).1 ≠ claimReadNextLine [32, 120, 10]) ∧
    readNextLine [97, 98] = ([97, 98], []) := by
  decide

/-- C4 amended: readNextLine polls read() one byte at a time but stops as
soon as read() returns 0 (empty buffer) or a newline is read; it returns the
accumulated characters — those before the first newline — with whitespace
trimmed from BOTH ends (the newline itself is consumed but never appended),
and leaves the buffer positioned past the newline. -/
theorem C4_readNextLine (buf : List Byte) :
    readNextLine buf =
      (trimBytes (buf.takeWhile (fun c => decide (c ≠ 10))),
       (buf.dropWhile (fun c => decide (c ≠ 10))).drop 1) := by
  simp [readNextLine, readNextLineLoop_eq]

/-- C5: the outbound buffer drains in FIFO order.  For every trace of write
calls and worker iterations, the bytes written to the device followed by the
pending bytes equal, in order, the concatenation of the submitted writes;
each iteration writes a chunk of at most writeBufferSize = 128 bytes and
removes exactly the written prefix; and once the buffer is fully drained the
device has received exactly the submitted bytes. -/
theorem C5_outbound_fifo (ops : List OutOp) :
    ((outExec ops).device ++ (outExec ops).buf = (outExec ops).submitted) ∧
    (∀ bb : Nat, bytesToWrite bb ≤ writeBufferSize) ∧
    ((outExec ops).buf = [] → (outExec ops).device = (outExec ops).submitted) := by
  refine ⟨outExec_inv_aux ops ⟨[], [], []⟩ rfl, ?_, ?_⟩
  · intro bb
    unfold bytesToWrite
    split
    · exact Nat.le_refl writeBufferSize
    · omega
  · intro hempty
    have h : (outExec ops).device ++ (outExec ops).buf = (outExec ops).submitted :=
      outExec_inv_aux ops ⟨[], [], []⟩ rfl
    rw [hempty, List.append_nil] at h
    exact h

/-- Witness for C5_outbound_fifo: a concrete trace that fully drains, on
which the device bytes equal the submitted bytes. -/
theorem C5_outbound_fifo_witness :
    (outExec [OutOp.writeCall [1, 2], OutOp.drainOk 2]).device
      = (outExec [OutOp.writeCall [1, 2], OutOp.drainOk 2]).submitted :=
  (C5_outbound_fifo [OutOp.writeCall [1, 2], OutOp.drainOk 2]).2.2 (by decide)

/-- C6: canReadLine() returns true exactly when the buffered bytes contain at
least one newline byte (10). -/
theorem C6_canReadLine_iff (buf : List Byte) :
    canReadLine buf = true ↔ 10 ∈ buf := by
  induction buf with
  | nil => simp [canReadLine]
  | cons c rest ih =>
      simp only [canReadLine, List.mem_cons]
      by_cases h : c = 10
      · subst h
        simp
      · have h2 : ¬(10 = c) := fun hh => h hh.symm
        simp [h, h2, ih]

/-- C7: the configuration translation round-trips: for every parity, stop
bits and flow control value, writing a DCB with setConfig's mapping and
reading it back with getConfig's mapping recovers the same three values. -/
theorem C7_config_roundtrip (c : SerialPortConfig) :
    getConfigParity (setConfigDCB c) = c.parity ∧
    getConfigStopBits (setConfigDCB c) = c.stopbits ∧
    getConfigFlow (setConfigDCB c) = c.flowcontrol := by
  obtain ⟨bps, databits, p, sb, fc⟩ := c
  cases p <;> cases sb <;> cases fc <;> exact ⟨rfl, rfl, rfl⟩

/-- C8 counterexample: cancel() does set the canceled flag, but neither
worker loop guard mentions it: after cancel() on a running port (handle 5,
no stop requested) both loops still continue, so the canceled flag alone
never makes a worker exit. -/
theorem C8_counterexample :
    ((cancelViaPort ⟨⟨5, false⟩, false⟩).port.canceled = true) ∧
    inputLoopContinues (cancelViaPort ⟨⟨5, false⟩, false⟩) = true ∧
    outputLoopContinues (cancelViaPort ⟨⟨5, false⟩, false⟩) = true := by
  decide

/-- C8 amended: the Windows worker loops do not observe the canceled flag set by
cancel(); the flag they observe is the thread's should-exit flag (set by
signalThreadShouldExit, as the stream destructors do).  Once that flag is
set, each loop guard — re-checked after every bounded (≤ 100 ms) wait — is
false and the loop exits; cancel() by itself leaves both guards unchanged. -/
theorem C8_stop_via_threadShouldExit (w : WorkerState)
    (h : w.threadShouldExit = true) :
    (inputLoopContinues w = false ∧ outputLoopContinues w = false) ∧
    (∀ v : WorkerState,
      inputLoopContinues (cancelViaPort v) = inputLoopContinues v ∧
      outputLoopContinues (cancelViaPort v) = outputLoopContinues v) := by
  refine ⟨⟨?_, ?_⟩, ?_⟩
  · simp [inputLoopContinues, h]
  · simp [outputLoopContinues, h]
  · intro v
    exact ⟨rfl, rfl⟩

/-- Witness for C8_stop_via_threadShouldExit at a concrete state with the
should-exit flag set. -/
theorem C8_stop_via_threadShouldExit_witness :
    (inputLoopContinues ⟨⟨5, false⟩, true⟩ = false ∧
      outputLoopContinues ⟨⟨5, false⟩, true⟩ = false) ∧
    (∀ v : WorkerState,
      inputLoopContinues (cancelViaPort v) = inputLoopContinues v ∧
      outputLoopContinues (cancelViaPort v) = outputLoopContinues v) :=
  C8_stop_via_threadShouldExit ⟨⟨5, false⟩, true⟩ rfl

/-- C9: isExhausted() returns true exactly when the number of buffered bytes
is nonzero — the opposite of conventional stream-exhaustion semantics. -/
theorem C9_isExhausted_iff (buf : List Byte) :
    isExhausted buf = true ↔ buf.length ≠ 0 := by
  simp [isExhausted]

/-- C10: a default-constructed SerialPortConfig has bps = 9600 and databits
also = 9600 (not 8); the parity member has no default initializer, modelled
by the indeterminate parameter p being passed through unchanged. -/
theorem C10_default_config (p : Parity) :
    (defaultConfig p).bps = 9600 ∧
    (defaultConfig p).databits = 9600 ∧
    (defaultConfig p).databits ≠ 8 ∧
    (defaultConfig p).parity = p := by
  refine ⟨rfl, rfl, ?_, rfl⟩
  simp [defaultConfig]

end JuceSerial
